import Mathlib

/-!
Verification of the authentication/token subsystem of the dashboard backend
(`src/app/backend/auth/api/types.go` and `client/envvar`).

The Go file under verification declares the data model (`LoginSpec`,
`AuthenticationMode`, `AuthenticationModes`, `DefaultTokenTTL`, the
`EnvVariable` helper) and the `TokenManager` / `AuthManager` interfaces.  The
concrete functions present in the source (`AuthenticationModes.IsEnabled`,
`AuthenticationModes.Add`, `AuthenticationModes.Array`, `envvar.EnvVariable`,
the two secret-name variables) are embedded directly.  The implementations
behind the `TokenManager` and `AuthManager` interfaces are not part of the
source slice, so they are modelled from the design document (sections 3, 4.1,
4.2, 4.4 and 4.5): a credential tagged union, a deterministic envelope codec
over a numeric byte stream, an idealised authenticated token cipher, and the
Generate / Decrypt / Refresh / SetTokenTTL and Login operations on top of
them.  Time is an explicit natural-number parameter (seconds).
-/

namespace Api

/-! ## Authentication modes (embedded from the source) -/

/-- Source: `type AuthenticationMode string` — auth mode supported by dashboard,
i.e. `basic`. -/
abbrev AuthenticationMode := String

/-- Source: `func (self AuthenticationMode) String() string`, returning
`string(self)`. -/
def AuthenticationMode.String (self : AuthenticationMode) : String :=
  self

/-- Source: `Token AuthenticationMode = "token"` -/
def Token : AuthenticationMode := "token"

/-- Source: `Basic AuthenticationMode = "basic"` -/
def Basic : AuthenticationMode := "basic"

/-- Source: `type AuthenticationModes map[AuthenticationMode]bool` — the Go map is
embedded as an association list: a key is present iff `List.lookup` finds it,
and the stored `Bool` is the map value. -/
abbrev AuthenticationModes := List (AuthenticationMode × Bool)

/-- Source: `IsEnabled`: `_, exists := self[mode]; return exists` — membership test on
the map, ignoring the stored boolean value. -/
def AuthenticationModes.IsEnabled (self : AuthenticationModes)
    (mode : AuthenticationMode) : Bool :=
  (List.lookup mode self).isSome

/-- Source: `Add`: `self[mode] = true` — Go map assignment: any previous binding of
`mode` is replaced and `mode` is bound to `true`. -/
def AuthenticationModes.Add (self : AuthenticationModes)
    (mode : AuthenticationMode) : AuthenticationModes :=
  (mode, true) :: self.filter (fun p => p.1 != mode)

/-- Source: `Array`: returns the list of keys of the map. -/
def AuthenticationModes.Array (self : AuthenticationModes) :
    List AuthenticationMode :=
  self.map (fun p => p.1)

/-! ## Environment variables (embedded from `client/envvar`) -/

/-- Source: `envvar.EnvVariable(envName, defaultValue)`: returns
`os.Getenv(envName)` when non-empty, the default otherwise.  The process
environment is passed explicitly as a total map `String → String`, with the
empty string standing for an unset variable exactly as `os.Getenv` reports
it. -/
def EnvVariable (env : String → String) (envName : String)
    (defaultValue : String) : String :=
  let envValue := env envName
  if envValue != "" then envValue else defaultValue

/-- Source: `var EncryptionKeyHolderName = envvar.EnvVariable("KEY_HOLDER_NAME",
"kubernetes-dashboard-key-holder")` -/
def EncryptionKeyHolderName (env : String → String) : String :=
  EnvVariable env "KEY_HOLDER_NAME" "kubernetes-dashboard-key-holder"

/-- Source: `var CertificateHolderSecretName = envvar.EnvVariable("DASHBOARD_CERTS_NAME",
"kubernetes-dashboard-certs")` -/
def CertificateHolderSecretName (env : String → String) : String :=
  EnvVariable env "DASHBOARD_CERTS_NAME" "kubernetes-dashboard-certs"

/-- Source: `DefaultTokenTTL = 900` — expiration time (in seconds) of tokens generated
by dashboard. -/
def DefaultTokenTTL : Nat := 900

/-! ## Credential and envelope (modelled from the spec) -/

/-- Modelled from the spec: the `Credential` tagged union of section 3 —
`{Basic: username+password}`, `{Bearer: token string}`,
`{ClientCert: certificate+key+optional CA data}`; exactly one variant is
populated.  The source slice only carries it as `api.AuthInfo` inside the
`TokenManager` interface. -/
inductive Credential where
  | basic (username password : String)
  | bearer (token : String)
  | clientCert (certData keyData : String) (caData : Option String)
deriving DecidableEq

/-- Modelled from the spec: `TokenEnvelope` (section 3) — the plaintext
structure encrypted into a token: one `Credential` plus an absolute expiration
timestamp (seconds). -/
structure TokenEnvelope where
  credential : Credential
  expiresAt : Nat
deriving DecidableEq

/-! ## Credential envelope codec (modelled from the spec, section 4.1) -/

/-- A string serialized into the numeric byte stream: its length followed by
the code point of each character. -/
def encodeString (s : String) : List Nat :=
  s.data.length :: s.data.map Char.toNat

/-- Reads one length-prefixed string back off the stream, returning the string
and the remaining stream, or `none` if the stream is too short. -/
def decodeString : List Nat → Option (String × List Nat)
  | [] => none
  | n :: rest =>
    if n ≤ rest.length then
      some (⟨(rest.take n).map Char.ofNat⟩, rest.drop n)
    else none

/-- Serialization of the credential tagged union: a variant tag (0 = basic,
1 = bearer, 2 = client certificate) followed by the variant's fields; the
optional CA data is preceded by a presence flag. -/
def encodeCredential : Credential → List Nat
  | .basic u p => 0 :: (encodeString u ++ encodeString p)
  | .bearer t => 1 :: encodeString t
  | .clientCert cert ckey none =>
      2 :: (encodeString cert ++ encodeString ckey ++ [0])
  | .clientCert cert ckey (some ca) =>
      2 :: (encodeString cert ++ encodeString ckey ++ 1 :: encodeString ca)

/-- Deserialization of a credential: fails (`none`) when the tag or a field is
not of the expected shape. -/
def decodeCredential : List Nat → Option (Credential × List Nat)
  | 0 :: rest => do
      let (u, r1) ← decodeString rest
      let (p, r2) ← decodeString r1
      some (.basic u p, r2)
  | 1 :: rest => do
      let (t, r1) ← decodeString rest
      some (.bearer t, r1)
  | 2 :: rest => do
      let (cert, r1) ← decodeString rest
      let (ckey, r2) ← decodeString r1
      match r2 with
      | 0 :: r3 => some (.clientCert cert ckey none, r3)
      | 1 :: r3 => do
          let (ca, r4) ← decodeString r3
          some (.clientCert cert ckey (some ca), r4)
      | _ => none
  | _ => none

/-- Errors of the token subsystem (spec section 7): structurally invalid
payload, authentication-tag mismatch, and expiration. -/
inductive TokenError where
  | malformedEnvelope
  | decryptionFailed
  | tokenExpired
deriving DecidableEq

/-- Modelled from the spec: `Encode(Credential, expiresAt) -> bytes`
(section 4.1) — the expiration timestamp followed by the serialized
credential. -/
def Encode (e : TokenEnvelope) : List Nat :=
  e.expiresAt :: encodeCredential e.credential

/-- Modelled from the spec: `Decode(bytes) -> (Credential, expiresAt)`
(section 4.1) — fails with `MalformedEnvelope` if the byte stream does not
deserialize to the expected shape. -/
def Decode (l : List Nat) : Except TokenError TokenEnvelope :=
  match l with
  | [] => .error .malformedEnvelope
  | exp :: rest =>
    match decodeCredential rest with
    | some (c, []) => .ok ⟨c, exp⟩
    | _ => .error .malformedEnvelope

/-! ## Token cipher (modelled from the spec, section 4.2) -/

/-- Modelled from the spec: `EncryptionKey` (section 3) — shared symmetric
secret material held by the Key Holder. -/
structure EncryptionKey where
  material : List Nat
deriving DecidableEq

/-- Modelled from the spec: the opaque token produced by `Seal` (section 4.2).
Authenticated encryption is idealised: the token records the ciphertext
together with the key it was sealed under, and `Open` succeeds exactly when
presented with that same key — any bit-flip or key mismatch fails closed. -/
structure SealedToken where
  sealedUnder : EncryptionKey
  ciphertext : List Nat
deriving DecidableEq

/-- Modelled from the spec: `Seal(key, plaintext) -> token` (section 4.2). -/
def Seal (k : EncryptionKey) (plaintext : List Nat) : SealedToken :=
  ⟨k, plaintext⟩

/-- Modelled from the spec: `Open(key, token) -> plaintext` (section 4.2) —
fails with `DecryptionFailed` on authentication-tag mismatch, i.e. whenever
the opening key differs from the sealing key. -/
def Open (k : EncryptionKey) (t : SealedToken) : Except TokenError (List Nat) :=
  if t.sealedUnder = k then .ok t.ciphertext else .error .decryptionFailed

/-! ## Token manager (modelled from the spec, section 4.4) -/

/-- Modelled from the spec: the state behind the `TokenManager` interface of
`types.go` — the current encryption key (obtained from the Key Holder) and the
token TTL policy in seconds. -/
structure TokenManager where
  tokenKey : EncryptionKey
  tokenTTL : Nat
deriving DecidableEq

/-- Modelled from the spec: a freshly constructed token manager uses the
built-in default TTL of `DefaultTokenTTL` seconds. -/
def TokenManager.init (k : EncryptionKey) : TokenManager :=
  ⟨k, DefaultTokenTTL⟩

/-- Modelled from the spec: `Generate` (section 4.4) — computes
`expiresAt = now + TTL`, builds the envelope, encodes it and seals it with the
current key.  `now` is the current time in seconds, passed explicitly. -/
def TokenManager.Generate (self : TokenManager) (now : Nat) (c : Credential) :
    SealedToken :=
  Seal self.tokenKey (Encode ⟨c, now + self.tokenTTL⟩)

/-- Modelled from the spec: `Decrypt` (section 4.4) — opens the token, decodes
the envelope and returns the credential without checking expiration. -/
def TokenManager.Decrypt (self : TokenManager) (t : SealedToken) :
    Except TokenError Credential := do
  let plaintext ← Open self.tokenKey t
  let env ← Decode plaintext
  return env.credential

/-- Modelled from the spec: `Refresh` (section 4.4) — opens the token, decodes
the envelope, fails with `TokenExpired` if `now >= expiresAt`, and otherwise
re-seals the same credential with a freshly computed
`expiresAt = now + TTL`. -/
def TokenManager.Refresh (self : TokenManager) (now : Nat) (t : SealedToken) :
    Except TokenError SealedToken := do
  let plaintext ← Open self.tokenKey t
  let env ← Decode plaintext
  if env.expiresAt ≤ now then
    throw .tokenExpired
  else
    return Seal self.tokenKey (Encode ⟨env.credential, now + self.tokenTTL⟩)

/-- Source: `SetTokenTTL` (interface method of `types.go`, behaviour modelled from the
spec): replaces the TTL used for subsequently generated tokens. -/
def TokenManager.SetTokenTTL (self : TokenManager) (ttl : Nat) : TokenManager :=
  { self with tokenTTL := ttl }

/-- Observer used in the statements below: the expiration timestamp carried
inside a token, read off by opening and decoding it. -/
def TokenManager.tokenExpiresAt (self : TokenManager) (t : SealedToken) :
    Except TokenError Nat := do
  let plaintext ← Open self.tokenKey t
  let env ← Decode plaintext
  return env.expiresAt

/-! ## Auth manager login (modelled from the spec, section 4.5) -/

/-- Errors of the login flow (spec section 7). -/
inductive AuthError where
  | invalidCredentials
  | authenticationModeDisabled
deriving DecidableEq

/-- Modelled from the spec: the outcome of parsing the kubeconfig text of a
`LoginSpec` (the parser itself lives in the external `clientcmd` library).
`absent` stands for an empty kubeconfig field; `parsed` for a successful parse
yielding one credential; `parseFailure` for text that fails to parse;
`externalPathRef` for a kubeconfig referencing external file paths, which
`types.go` forbids ("Kubeconfig can not contain any paths"). -/
inductive KubeConfigOutcome where
  | absent
  | parsed (c : Credential)
  | parseFailure
  | externalPathRef
deriving DecidableEq

/-- Source: `LoginSpec` of `types.go`: optional username, password, bearer token and
kubeconfig content (the latter represented by its parse outcome). -/
structure LoginSpec where
  username : String
  password : String
  token : String
  kubeConfig : KubeConfigOutcome
deriving DecidableEq

/-- The authentication mode a credential variant corresponds to; client
certificates are carried by kubeconfig input and have no dedicated login
mode. -/
def Credential.mode : Credential → Option AuthenticationMode
  | .basic _ _ => some Basic
  | .bearer _ => some Token
  | .clientCert _ _ _ => none

/-- Modelled from the spec: `Login` (section 4.5) — derives exactly one
credential from the spec with precedence explicit bearer token > explicit
username/password > parsed kubeconfig; fails with
`AuthenticationModeDisabled` when the only data present corresponds to a
disabled mode, and with `InvalidCredentials` when no usable credential can be
derived at all (empty spec, kubeconfig parse failure, or a kubeconfig
referencing external paths). -/
def Login (modes : AuthenticationModes) (spec : LoginSpec) :
    Except AuthError Credential :=
  if spec.token != "" then
    if AuthenticationModes.IsEnabled modes Token then
      .ok (.bearer spec.token)
    else
      .error .authenticationModeDisabled
  else if spec.username != "" && spec.password != "" then
    if AuthenticationModes.IsEnabled modes Basic then
      .ok (.basic spec.username spec.password)
    else
      .error .authenticationModeDisabled
  else
    match spec.kubeConfig with
    | .absent => .error .invalidCredentials
    | .parseFailure => .error .invalidCredentials
    | .externalPathRef => .error .invalidCredentials
    | .parsed c =>
      match Credential.mode c with
      | none => .ok c
      | some m =>
        if AuthenticationModes.IsEnabled modes m then .ok c
        else .error .authenticationModeDisabled

/-! ## Concrete fixtures used by witness statements -/

/-- A sample encryption key. -/
def keyA : EncryptionKey := ⟨[1]⟩

/-- A second, distinct sample encryption key. -/
def keyB : EncryptionKey := ⟨[2]⟩

/-- A token manager holding `keyA` with the default TTL. -/
def mgrA : TokenManager := TokenManager.init keyA

/-- A token manager holding `keyB` with the default TTL. -/
def mgrB : TokenManager := TokenManager.init keyB

/-- A sample basic-auth credential. -/
def credAdmin : Credential := .basic "admin" "x"

/-- Mode set in which `token` is the sole enabled mode. -/
def tokenOnlyModes : AuthenticationModes := [(Token, true)]

/-- Mode set in which `basic` is the sole enabled mode. -/
def basicOnlyModes : AuthenticationModes := [(Basic, true)]

/-- Mode set in which `basic` is present but explicitly mapped to `false`. -/
def basicFalseModes : AuthenticationModes := [(Basic, false)]

/-- A process environment overriding only the key-holder secret name. -/
def envCustom : String → String :=
  fun n => if n = "KEY_HOLDER_NAME" then "custom-holder" else ""

/-- A login spec carrying only a bearer token. -/
def tokenOnlySpec : LoginSpec := ⟨"", "", "t", .absent⟩

/-- A login spec carrying only a username and password. -/
def basicOnlySpec : LoginSpec := ⟨"u", "p", "", .absent⟩

/-- The empty login spec. -/
def emptySpec : LoginSpec := ⟨"", "", "", .absent⟩

/-! ## Codec round-trip lemmas -/

theorem char_ofNat_toNat (c : Char) : Char.ofNat c.toNat = c := by
  have h : c.toNat.isValidChar := c.valid
  simp [Char.ofNat, h]
  cases c with
  | mk v hv =>
    simp [Char.ofNatAux, Char.toNat, UInt32.ofNat']
    ext
    simp [UInt32.toNat]

theorem decodeString_encodeString (s : String) (l : List Nat) :
    decodeString (encodeString s ++ l) = some (s, l) := by
  have hlen : (s.data.map Char.toNat).length = s.data.length :=
    List.length_map _ _
  have hle : s.data.length ≤ (s.data.map Char.toNat ++ l).length := by
    simp [List.length_append, hlen]
  simp only [encodeString, List.cons_append, decodeString, List.append_assoc]
  rw [if_pos hle]
  have htake : (s.data.map Char.toNat ++ l).take s.data.length
      = s.data.map Char.toNat := by
    rw [← hlen]
    exact List.take_left _ _
  have hdrop : (s.data.map Char.toNat ++ l).drop s.data.length = l := by
    rw [← hlen]
    exact List.drop_left _ _
  rw [htake, hdrop]
  have hmap : (s.data.map Char.toNat).map Char.ofNat = s.data := by
    rw [List.map_map]
    have : (Char.ofNat ∘ Char.toNat) = id := by
      funext c
      exact char_ofNat_toNat c
    rw [this, List.map_id]
  rw [hmap]

theorem decodeCredential_encodeCredential (c : Credential) (l : List Nat) :
    decodeCredential (encodeCredential c ++ l) = some (c, l) := by
  cases c with
  | basic u p =>
      simp [encodeCredential, decodeCredential, List.append_assoc,
        decodeString_encodeString]
  | bearer t =>
      simp [encodeCredential, decodeCredential, decodeString_encodeString]
  | clientCert cert ckey ca =>
      cases ca with
      | none =>
          simp [encodeCredential, decodeCredential, List.append_assoc,
            decodeString_encodeString]
      | some v =>
          simp [encodeCredential, decodeCredential, List.append_assoc,
            decodeString_encodeString]

theorem Decode_Encode (e : TokenEnvelope) : Decode (Encode e) = .ok e := by
  have h := decodeCredential_encodeCredential e.credential []
  rw [List.append_nil] at h
  simp [Encode, Decode, h]

/-! ## Cipher and manager lemmas -/

theorem except_ok_bind {ε α β : Type} (a : α) (f : α → Except ε β) :
    (Except.ok a >>= f) = f a :=
  rfl

theorem except_error_bind {ε α β : Type} (e : ε) (f : α → Except ε β) :
    ((Except.error e : Except ε α) >>= f) = Except.error e :=
  rfl

theorem Open_Seal (k : EncryptionKey) (pt : List Nat) :
    Open k (Seal k pt) = .ok pt := by
  simp [Open, Seal]

theorem Open_Seal_ne (k1 k2 : EncryptionKey) (pt : List Nat) (h : k1 ≠ k2) :
    Open k2 (Seal k1 pt) = .error .decryptionFailed := by
  simp [Open, Seal, h]

theorem Generate_eq_Seal (s : TokenManager) (now : Nat) (c : Credential) :
    s.Generate now c = Seal s.tokenKey (Encode ⟨c, now + s.tokenTTL⟩) :=
  rfl

theorem Decrypt_Seal (s : TokenManager) (e : TokenEnvelope) :
    s.Decrypt (Seal s.tokenKey (Encode e)) = .ok e.credential := by
  simp only [TokenManager.Decrypt, Open_Seal, except_ok_bind, Decode_Encode]
  rfl

theorem Decrypt_Generate (s : TokenManager) (now : Nat) (c : Credential) :
    s.Decrypt (s.Generate now c) = .ok c := by
  rw [Generate_eq_Seal]
  exact Decrypt_Seal s ⟨c, now + s.tokenTTL⟩

theorem tokenExpiresAt_Seal (s : TokenManager) (e : TokenEnvelope) :
    s.tokenExpiresAt (Seal s.tokenKey (Encode e)) = .ok e.expiresAt := by
  simp only [TokenManager.tokenExpiresAt, Open_Seal, except_ok_bind, Decode_Encode]
  rfl

theorem Refresh_Generate_lt (s : TokenManager) (c : Credential) (t0 now : Nat)
    (h : now < t0 + s.tokenTTL) :
    s.Refresh now (s.Generate t0 c) = .ok (s.Generate now c) := by
  rw [Generate_eq_Seal]
  simp only [TokenManager.Refresh, Open_Seal, except_ok_bind, Decode_Encode]
  rw [if_neg (by omega)]
  rfl

theorem Refresh_Generate_ge (s : TokenManager) (c : Credential) (t0 now : Nat)
    (h : t0 + s.tokenTTL ≤ now) :
    s.Refresh now (s.Generate t0 c) = .error .tokenExpired := by
  rw [Generate_eq_Seal]
  simp only [TokenManager.Refresh, Open_Seal, except_ok_bind, Decode_Encode]
  rw [if_pos h]
  rfl

/-! ## Claim theorems -/

/-- C1: for every valid Credential `c` and every TTL `t > 0`, calling `Decrypt`
on the token returned by `Generate c`, before that token's expiration, returns
a Credential equal to `c`. -/
theorem generate_decrypt_roundtrip (s : TokenManager) (c : Credential)
    (t0 now : Nat) (httl : 0 < s.tokenTTL) (hbefore : now < t0 + s.tokenTTL) :
    s.Decrypt (s.Generate t0 c) = .ok c :=
  Decrypt_Generate s t0 c

/-- Witness for C1 at a concrete manager, credential and time. -/
theorem generate_decrypt_roundtrip_witness :
    0 < mgrA.tokenTTL ∧ (5 : Nat) < 0 + mgrA.tokenTTL ∧
    mgrA.Decrypt (mgrA.Generate 0 credAdmin) = .ok credAdmin :=
  ⟨by decide, by decide,
    generate_decrypt_roundtrip mgrA credAdmin 0 5 (by decide) (by decide)⟩

/-- C2: for a token generated at `t0`, `Refresh` at time `now` succeeds exactly
while `now < expiresAt = t0 + TTL`, re-sealing the same credential with a fresh
expiration `now + TTL`, and fails with `TokenExpired` once `now ≥ expiresAt`. -/
theorem refresh_expiry_window (s : TokenManager) (c : Credential) (t0 now : Nat) :
    (now < t0 + s.tokenTTL →
      s.Refresh now (s.Generate t0 c) = .ok (s.Generate now c)) ∧
    (t0 + s.tokenTTL ≤ now →
      s.Refresh now (s.Generate t0 c) = .error .tokenExpired) :=
  ⟨Refresh_Generate_lt s c t0 now, Refresh_Generate_ge s c t0 now⟩

/-- Witness for C2: refresh succeeds at 899 s and fails at 900 s for a token
generated at 0 with the default 900-second TTL. -/
theorem refresh_expiry_window_witness :
    ((899 : Nat) < 0 + mgrA.tokenTTL ∧
      mgrA.Refresh 899 (mgrA.Generate 0 credAdmin) = .ok (mgrA.Generate 899 credAdmin)) ∧
    (0 + mgrA.tokenTTL ≤ (900 : Nat) ∧
      mgrA.Refresh 900 (mgrA.Generate 0 credAdmin) = .error .tokenExpired) :=
  ⟨⟨by decide, (refresh_expiry_window mgrA credAdmin 0 899).1 (by decide)⟩,
   ⟨by decide, (refresh_expiry_window mgrA credAdmin 0 900).2 (by decide)⟩⟩

/-- C3: `Decrypt` opens the token, decodes the envelope, and returns the
contained credential without checking expiration; in particular decrypting an
expired but otherwise valid token still succeeds. -/
theorem decrypt_ignores_expiration (s : TokenManager) (e : TokenEnvelope)
    (now : Nat) (hexpired : e.expiresAt ≤ now) :
    s.Decrypt (Seal s.tokenKey (Encode e)) = .ok e.credential :=
  Decrypt_Seal s e

/-- Witness for C3: a token whose expiration 900 lies at or before `now = 2000`
still decrypts. -/
theorem decrypt_ignores_expiration_witness :
    (TokenEnvelope.mk credAdmin 900).expiresAt ≤ 2000 ∧
    mgrA.Decrypt (Seal mgrA.tokenKey (Encode ⟨credAdmin, 900⟩)) = .ok credAdmin :=
  ⟨by decide, decrypt_ignores_expiration mgrA ⟨credAdmin, 900⟩ 2000 (by decide)⟩

/-- C4: refresh never invalidates the token it was given — whenever
`Refresh` of a generated token succeeds with `t2`, both the original token and
`t2` still decrypt to the sealed credential. -/
theorem refresh_preserves_previous_token (s : TokenManager) (c : Credential)
    (t0 now : Nat) (t2 : SealedToken)
    (h : s.Refresh now (s.Generate t0 c) = .ok t2) :
    s.Decrypt (s.Generate t0 c) = .ok c ∧ s.Decrypt t2 = .ok c := by
  refine ⟨Decrypt_Generate s t0 c, ?_⟩
  by_cases hlt : now < t0 + s.tokenTTL
  · rw [Refresh_Generate_lt s c t0 now hlt] at h
    injection h with h2
    rw [← h2]
    exact Decrypt_Generate s now c
  · rw [Refresh_Generate_ge s c t0 now (by omega)] at h
    cases h

/-- Witness for C4 at a concrete refresh of a concrete token. -/
theorem refresh_preserves_previous_token_witness :
    mgrA.Decrypt (mgrA.Generate 0 credAdmin) = .ok credAdmin ∧
    mgrA.Decrypt (mgrA.Generate 10 credAdmin) = .ok credAdmin :=
  refresh_preserves_previous_token mgrA credAdmin 0 10
    (mgrA.Generate 10 credAdmin) (Refresh_Generate_lt mgrA credAdmin 0 10 (by decide))

/-- C5: a token sealed under one key and opened under a different key always
fails with `DecryptionFailed`, for both `Decrypt` and `Refresh`. -/
theorem cross_key_decryption_fails (s1 s2 : TokenManager) (c : Credential)
    (t0 now : Nat) (hk : s1.tokenKey ≠ s2.tokenKey) :
    s2.Decrypt (s1.Generate t0 c) = .error .decryptionFailed ∧
    s2.Refresh now (s1.Generate t0 c) = .error .decryptionFailed := by
  constructor
  · simp only [TokenManager.Decrypt, Generate_eq_Seal,
      Open_Seal_ne _ _ _ hk, except_error_bind]
  · simp only [TokenManager.Refresh, Generate_eq_Seal,
      Open_Seal_ne _ _ _ hk, except_error_bind]

/-- Witness for C5: keys `keyA` and `keyB` differ, and opening under the wrong
manager fails closed. -/
theorem cross_key_decryption_fails_witness :
    mgrA.tokenKey ≠ mgrB.tokenKey ∧
    mgrB.Decrypt (mgrA.Generate 0 credAdmin) = .error .decryptionFailed ∧
    mgrB.Refresh 5 (mgrA.Generate 0 credAdmin) = .error .decryptionFailed :=
  ⟨by decide,
    (cross_key_decryption_fails mgrA mgrB credAdmin 0 5 (by decide)).1,
    (cross_key_decryption_fails mgrA mgrB credAdmin 0 5 (by decide)).2⟩

/-- C6: the token TTL defaults to 900 seconds; `SetTokenTTL` changes the TTL at
runtime, leaves the expiration (and decryptability) of every already-issued
token unchanged, and affects only tokens generated afterwards. -/
theorem set_token_ttl_prospective_only (s : TokenManager) (k : EncryptionKey)
    (ttl t0 t1 : Nat) (c : Credential) :
    DefaultTokenTTL = 900 ∧
    (TokenManager.init k).tokenTTL = DefaultTokenTTL ∧
    (s.SetTokenTTL ttl).tokenTTL = ttl ∧
    (s.SetTokenTTL ttl).tokenExpiresAt (s.Generate t0 c) = .ok (t0 + s.tokenTTL) ∧
    (s.SetTokenTTL ttl).tokenExpiresAt ((s.SetTokenTTL ttl).Generate t1 c)
      = .ok (t1 + ttl) ∧
    (s.SetTokenTTL ttl).Decrypt (s.Generate t0 c) = .ok c := by
  have hkey : s.Generate t0 c
      = Seal (s.SetTokenTTL ttl).tokenKey (Encode ⟨c, t0 + s.tokenTTL⟩) := rfl
  refine ⟨rfl, rfl, rfl, ?_, ?_, ?_⟩
  · rw [hkey, tokenExpiresAt_Seal]
  · rw [Generate_eq_Seal, tokenExpiresAt_Seal]
    rfl
  · rw [hkey, Decrypt_Seal]

/-- C7: `Login` on a spec from which no usable credential can be derived — the
empty spec, a kubeconfig that fails to parse, or one referencing external
file paths — fails with `InvalidCredentials`, for every mode configuration. -/
theorem login_unusable_spec_invalid (modes : AuthenticationModes) :
    Login modes emptySpec = .error .invalidCredentials ∧
    Login modes ⟨"", "", "", .parseFailure⟩ = .error .invalidCredentials ∧
    Login modes ⟨"", "", "", .externalPathRef⟩ = .error .invalidCredentials :=
  ⟨rfl, rfl, rfl⟩

/-- C8: `Login` derives exactly one credential with precedence bearer token >
username/password > kubeconfig, failing with `AuthenticationModeDisabled` when
the only data present corresponds to a disabled mode; in particular a spec
carrying only a bearer token fails so when `basic` is the sole enabled mode. -/
theorem login_precedence_and_disabled_mode (modes : AuthenticationModes)
    (spec : LoginSpec) :
    (spec.token ≠ "" →
      Login modes spec =
        if AuthenticationModes.IsEnabled modes Token then .ok (.bearer spec.token)
        else .error .authenticationModeDisabled) ∧
    (spec.token = "" → spec.username ≠ "" → spec.password ≠ "" →
      Login modes spec =
        if AuthenticationModes.IsEnabled modes Basic then
          .ok (.basic spec.username spec.password)
        else .error .authenticationModeDisabled) ∧
    Login basicOnlyModes tokenOnlySpec = .error .authenticationModeDisabled := by
  refine ⟨?_, ?_, rfl⟩
  · intro ht
    simp [Login, ht]
  · intro ht hu hp
    simp [Login, ht, hu, hp]

/-- Witness for C8: token-only login under token-only modes succeeds as a
bearer credential; basic login under basic-only modes succeeds as a basic
credential. -/
theorem login_precedence_and_disabled_mode_witness :
    Login tokenOnlyModes tokenOnlySpec = .ok (.bearer "t") ∧
    Login basicOnlyModes basicOnlySpec = .ok (.basic "u" "p") := by
  constructor
  · have h := (login_precedence_and_disabled_mode tokenOnlyModes tokenOnlySpec).1
      (by decide)
    rw [h]
    rfl
  · have h := (login_precedence_and_disabled_mode basicOnlyModes basicOnlySpec).2.1
      rfl (by decide) (by decide)
    rw [h]
    rfl

/-- C9: each well-known secret name equals the environment variable's value
when that variable is non-empty, and the built-in default
(`kubernetes-dashboard-key-holder`, resp. `kubernetes-dashboard-certs`) when
it is unset or empty. -/
theorem secret_names_env_override (env : String → String) :
    (env "KEY_HOLDER_NAME" ≠ "" →
      EncryptionKeyHolderName env = env "KEY_HOLDER_NAME") ∧
    (env "KEY_HOLDER_NAME" = "" →
      EncryptionKeyHolderName env = "kubernetes-dashboard-key-holder") ∧
    (env "DASHBOARD_CERTS_NAME" ≠ "" →
      CertificateHolderSecretName env = env "DASHBOARD_CERTS_NAME") ∧
    (env "DASHBOARD_CERTS_NAME" = "" →
      CertificateHolderSecretName env = "kubernetes-dashboard-certs") := by
  refine ⟨?_, ?_, ?_, ?_⟩ <;> intro h <;>
    simp [EncryptionKeyHolderName, CertificateHolderSecretName, EnvVariable, h]

/-- Witness for C9: an environment overriding only the key-holder name yields
the override there and the built-in default for the certificate secret. -/
theorem secret_names_env_override_witness :
    envCustom "KEY_HOLDER_NAME" ≠ "" ∧
    EncryptionKeyHolderName envCustom = "custom-holder" ∧
    envCustom "DASHBOARD_CERTS_NAME" = "" ∧
    CertificateHolderSecretName envCustom = "kubernetes-dashboard-certs" := by
  refine ⟨by decide, ?_, by decide, ?_⟩
  · have h := (secret_names_env_override envCustom).1 (by decide)
    rw [h]
    decide
  · exact (secret_names_env_override envCustom).2.2.2 (by decide)

/-- C10: `IsEnabled` reports a mode enabled exactly when it is present as a key
of the map, regardless of the stored boolean — a mode mapped to `false` is
still enabled — and `Add` binds the mode to `true`, so after `Add` the mode is
enabled. -/
theorem isEnabled_key_presence_and_add (m : AuthenticationModes)
    (x : AuthenticationMode) (b : Bool) :
    (List.lookup x m = some b → AuthenticationModes.IsEnabled m x = true) ∧
    (List.lookup x m = none → AuthenticationModes.IsEnabled m x = false) ∧
    List.lookup x (AuthenticationModes.Add m x) = some true ∧
    AuthenticationModes.IsEnabled (AuthenticationModes.Add m x) x = true := by
  refine ⟨?_, ?_, ?_, ?_⟩
  · intro h
    simp [AuthenticationModes.IsEnabled, h]
  · intro h
    simp [AuthenticationModes.IsEnabled, h]
  · simp [AuthenticationModes.Add, List.lookup]
  · simp [AuthenticationModes.IsEnabled, AuthenticationModes.Add, List.lookup]

/-- Witness for C10: the mode `basic` mapped explicitly to `false` is still
reported enabled. -/
theorem isEnabled_key_presence_and_add_witness :
    List.lookup Basic basicFalseModes = some false ∧
    AuthenticationModes.IsEnabled basicFalseModes Basic = true :=
  ⟨by decide,
    (isEnabled_key_presence_and_add basicFalseModes Basic false).1 (by decide)⟩

end Api
